import Mathlib

/-!
Verification development for the investment backtest service.

The Python sources are embedded shallowly: pure fragments become Lean
functions over `ℚ`/`ℝ`, fallible fragments return `Except String _`, and
external effects (database rows, price fetches) are passed in as explicit
inputs. Components whose modules are referenced but absent from the
repository snapshot (the optimizer and the metrics calculator) are modelled
from the specification, as marked in their doc comments.
-/

deriving instance DecidableEq for Except

namespace InvestmentBE

/-! ## String helpers

Kernel-reducible counterparts of Python's `str.startswith` / `str.endswith`,
used by the `DataLoader.__init__` embedding. -/

/-- Python `s.startswith(p)` on the underlying character list. -/
def strStartsWith (s p : String) : Bool := p.data.isPrefixOf s.data

/-- Python `s.endswith(p)` on the underlying character list. -/
def strEndsWith (s p : String) : Bool := p.data.isSuffixOf s.data

/-! ## DataLoader.__init__ path normalization (src/backtest/data_loader.py, lines 27-38) -/

/-- Embedding of the branch chain in `DataLoader.__init__` that rewrites a
(nonempty) `db_path` into SQLAlchemy form: a `postgresql://` path is kept, then
a path ending in `.db` or starting with `/` gains the `sqlite:///` head, then a
path starting with `sqlite:///` is kept, and anything else raises `ValueError`. -/
def normalizeDbPath (dbPath : String) : Except String String :=
  if strStartsWith dbPath "postgresql://" then .ok dbPath
  else if strEndsWith dbPath ".db" || strStartsWith dbPath "/" then
    .ok ("sqlite:///" ++ dbPath)
  else if strStartsWith dbPath "sqlite:///" then .ok dbPath
  else .error ("지원되지 않는 DB 경로 형식: " ++ dbPath)

/-! ## Candidate rows and DataLoader._load_db_data (src/backtest/data_loader.py, lines 173-225) -/

/-- One row of the `stock_analysis` table as selected by the loader queries. -/
structure CandidateRow where
  code : String
  name : String
  annual_return : ℚ
  volatility : ℚ
  dividend_yield : ℚ
  liquidity : ℚ
deriving DecidableEq

/-- The WHERE clause of `_load_db_data`: `dividend_yield >= :min_dividend AND
liquidity >= :min_liquidity AND volatility <= :max_volatility`, where the bound
parameter `:min_liquidity` is `min_liquidity * 1_000_000` (the method converts
the argument from millions of won to won before binding it). -/
def candidateMatches (minDividend minLiquidity maxVolatility : ℚ) (r : CandidateRow) : Bool :=
  decide (minDividend ≤ r.dividend_yield) &&
    decide (minLiquidity * 1000000 ≤ r.liquidity) &&
    decide (r.volatility ≤ maxVolatility)

/-- The comparison realizing `ORDER BY annual_return DESC`. -/
def annualReturnDesc (a b : CandidateRow) : Bool :=
  decide (b.annual_return ≤ a.annual_return)

/-- Embedding of `DataLoader._load_db_data`: filter the table by the screening
predicate, sort by `annual_return` descending, keep at most `limit` rows, and
raise `ValueError` when the resulting frame is empty. -/
def loadDbData (db : List CandidateRow) (limit : Nat)
    (minDividend minLiquidity maxVolatility : ℚ) : Except String (List CandidateRow) :=
  let rows :=
    (((db.filter (candidateMatches minDividend minLiquidity maxVolatility)).mergeSort
      annualReturnDesc).take limit)
  if rows.isEmpty then .error "조건을 만족하는 종목이 없습니다." else .ok rows

/-! ## DataLoader.load_stock_data (src/backtest/data_loader.py, lines 49-97) -/

/-- The outcome of `_fetch_stock_price(code)` as observed by `load_stock_data`:
`none` covers both an exception and a `None` return, and `some closes` is a
dataframe whose `Close` column holds the listed entries, a `none` entry being a
NaN. -/
def PriceFetchOutcome : Type := Option (List (Option ℚ))

/-- The validity test on a fetched frame in `load_stock_data`:
`df is not None and not df.empty and not df["Close"].isna().any()`. -/
def validPriceData : Option (List (Option ℚ)) → Bool
  | none => false
  | some closes => !closes.isEmpty && closes.all (·.isSome)

/-- The `valid_stocks` loop of `load_stock_data`: the candidates whose fetched
price data passes `validPriceData` (the ones inserted into the dict). -/
def collectValidStocks (stockData : List CandidateRow)
    (fetch : String → Option (List (Option ℚ))) : List CandidateRow :=
  stockData.filter (fun r => validPriceData (fetch r.code))

/-- The three fields written on the portfolio at the end of `load_stock_data`:
the columns of `pd.DataFrame(valid_stocks)` (the distinct dict keys), the rows
of `stock_data[stock_data["code"].isin(valid_stocks.keys())]`, and the
benchmark series. -/
structure PriceSetOut where
  stockPricesColumns : List String
  stockInfo : List CandidateRow
  benchmark : List ℚ
deriving DecidableEq

/-- Embedding of the price-collection part of `DataLoader.load_stock_data`
(lines 73-97): given the screened `stock_data` rows, the per-instrument fetch
outcomes, and the benchmark fetch outcome, keep exactly the instruments with
valid data, raise `ValueError` when none survive, and otherwise store prices,
info, and benchmark. -/
def loadStockData (stockData : List CandidateRow)
    (fetch : String → Option (List (Option ℚ)))
    (benchmarkFetch : Except String (List ℚ)) : Except String PriceSetOut :=
  let valid := collectValidStocks stockData fetch
  if valid.isEmpty then .error "유효한 주가 데이터가 없습니다"
  else
    match benchmarkFetch with
    | .error e => .error e
    | .ok bench =>
      .ok { stockPricesColumns := (valid.map (·.code)).dedup
            stockInfo := stockData.filter (fun r => (valid.map (·.code)).contains r.code)
            benchmark := bench }

/-! ## Response schemas (src/app/schemas.py) -/

/-- `PortfolioComposition` of src/app/schemas.py. -/
structure PortfolioComposition where
  code : String
  name : String
  weight : ℚ
  dividend_yield : ℚ
deriving DecidableEq

/-- `PortfolioMetrics` of src/app/schemas.py. -/
structure PortfolioMetrics where
  composition : List PortfolioComposition
  final_value : ℚ
  total_return : ℚ
  annual_volatility : ℚ
  sharpe_ratio : ℚ
  max_drawdown : ℚ
  win_rate : ℚ
deriving DecidableEq

/-- `BenchmarkMetrics` of src/app/schemas.py. -/
structure BenchmarkMetrics where
  final_value : ℚ
  total_return : ℚ
  annual_volatility : ℚ
deriving DecidableEq

/-- `IndividualStockPerformance` of src/app/schemas.py: note the third field is
declared `return_` (no alias is configured on the model). -/
structure IndividualStockPerformance where
  code : String
  name : String
  return_ : ℚ
  volatility : ℚ
deriving DecidableEq

/-- `Visualizations` of src/app/schemas.py. -/
structure Visualizations where
  value_changes : String
  composition : String
  risk_return : String
deriving DecidableEq

/-- `BacktestResponse` of src/app/schemas.py. -/
structure BacktestResponse where
  portfolio : PortfolioMetrics
  benchmark : BenchmarkMetrics
  individual_stocks : List IndividualStockPerformance
  visualizations : Visualizations
deriving DecidableEq

/-- A JSON-ish value, enough to state serialization facts. -/
inductive PyValue where
  | null : PyValue
  | str : String → PyValue
  | num : ℚ → PyValue
deriving DecidableEq

/-- Pydantic serialization of `IndividualStockPerformance`: with no alias
configured on the model, every field is emitted under its declared name, so the
third key is the literal string "return_". -/
def serializeIndividualStock (s : IndividualStockPerformance) : List (String × PyValue) :=
  [("code", .str s.code), ("name", .str s.name),
   ("return_", .num s.return_), ("volatility", .num s.volatility)]

/-! ## run_backtest_api and the /run-backtest endpoint (src/app/run_backtest.py) -/

/-- The dictionary built by the `except` branch of `run_backtest_api`:
`{"error": str(e), "metrics": None, "visualizations": None}`. -/
def errorDict (msg : String) : List (String × PyValue) :=
  [("error", .str msg), ("metrics", .null), ("visualizations", .null)]

/-- The two shapes a `run_backtest_api` call can produce: a full
`BacktestResponse`, or the error dictionary. -/
inductive ApiResult where
  | response : BacktestResponse → ApiResult
  | errorObj : List (String × PyValue) → ApiResult
deriving DecidableEq

/-- The body of the `try` block of `run_backtest_api`: the six stages run in
order and the first raised exception aborts the rest. Each stage is passed in
as an explicit fallible function (the optimizer, engine and visualizer modules
are imported collaborators), so `Except` sequencing is exactly Python
exception propagation. -/
def runPipeline (P L O R D : Type)
    (init : Except String P) (load : P → Except String L)
    (opt : L → Except String O) (eng : O → Except String R)
    (gen : R → Except String D) (build : D → Except String BacktestResponse) :
    Except String BacktestResponse :=
  match init with
  | .error e => .error e
  | .ok portfolio =>
    match load portfolio with
    | .error e => .error e
    | .ok loaded =>
      match opt loaded with
      | .error e => .error e
      | .ok optimized =>
        match eng optimized with
        | .error e => .error e
        | .ok raw =>
          match gen raw with
          | .error e => .error e
          | .ok results => build results

/-- `run_backtest_api` (src/app/run_backtest.py, lines 68-137): the `try`
block's value on success, the error dictionary on any raised exception. -/
def runBacktestApi (P L O R D : Type)
    (init : Except String P) (load : P → Except String L)
    (opt : L → Except String O) (eng : O → Except String R)
    (gen : R → Except String D) (build : D → Except String BacktestResponse) :
    ApiResult :=
  match runPipeline P L O R D init load opt eng gen build with
  | .ok r => .response r
  | .error e => .errorObj (errorDict e)

/-- Python truthiness of the two possible `run_backtest_api` values: a pydantic
model defines neither `__bool__` nor `__len__` and is always truthy, and a dict
is truthy exactly when it is nonempty. -/
def apiResultTruthy : ApiResult → Bool
  | .response _ => true
  | .errorObj d => !d.isEmpty

/-- Result of the HTTP endpoint: the returned payload or an `HTTPException`. -/
inductive EndpointResult where
  | ok : ApiResult → EndpointResult
  | httpError : Nat → String → EndpointResult
deriving DecidableEq

/-- The `/run-backtest` endpoint body (src/app/run_backtest.py, lines 141-155):
return `response_data` when it is truthy, otherwise raise HTTP 500. -/
def runBacktestEndpoint (P L O R D : Type)
    (init : Except String P) (load : P → Except String L)
    (opt : L → Except String O) (eng : O → Except String R)
    (gen : R → Except String D) (build : D → Except String BacktestResponse) :
    EndpointResult :=
  let responseData := runBacktestApi P L O R D init load opt eng gen build
  if apiResultTruthy responseData then .ok responseData
  else .httpError 500 "백테스트 실행 중 오류가 발생했습니다."

/-! ## The two revisions of the condition endpoint
(src/main.py `create_condition` and src/app/condition.py `create_condition`) -/

/-- `BacktestingPeriod` request model (identical in both revisions). -/
structure BacktestingPeriod where
  start_year : Int
  start_month : Int
  end_year : Int
  end_month : Int
deriving DecidableEq

/-- `Condition` request model (identical in both revisions). -/
structure Condition where
  n_stock : Int
  min_dividend : ℚ
  investment_style : String
  backtesting_period : BacktestingPeriod
deriving DecidableEq

/-- Shape of the value returned by either condition endpoint (`ResponseModel`
in src/main.py, `ConditionBacktestRequest` in src/app/condition.py). -/
structure ConditionResponse where
  condition : Condition
  max_volatility : ℚ
  target_return : ℚ
deriving DecidableEq

/-- `START_YEAR = 1966`, identical in both revisions. -/
def START_YEAR : Int := 1966

/-- The backtesting-period validation chain, textually identical in
src/main.py and src/app/condition.py; `currentYear` stands for
`datetime.now().year`. -/
def checkPeriod (currentYear : Int) (p : BacktestingPeriod) : Except String Unit :=
  if p.start_year ≤ 0 then .error "시작 연도를 입력해주세요."
  else if p.start_year < START_YEAR ∨ p.end_year > currentYear then
    .error "시작 연도 값이 유효하지 않습니다."
  else if p.start_month < 1 ∨ p.start_month > 12 then
    .error "시작 월은 1부터 12 사이여야 합니다."
  else if p.end_year ≤ 0 then .error "종료 연도를 입력해주세요."
  else if p.end_year < p.start_year then .error "종료 연도는 시작 연도보다 커야 합니다."
  else if p.end_year < START_YEAR ∨ p.end_year > currentYear then
    .error "종료 연도 값이 유효하지 않습니다."
  else if p.end_year = p.start_year ∧ p.end_month < p.start_month then
    .error "종료 월은 시작 월보다 커야 합니다."
  else if p.end_month < 1 ∨ p.end_month > 12 then
    .error "종료 월은 1부터 12 사이여야 합니다."
  else .ok ()

/-- The shared tail of both endpoints: validate the period, then return the
response echoing the (possibly rescaled) condition with the chosen
`max_volatility` and `target_return`. -/
def finishCondition (currentYear : Int) (req : Condition) (maxVol target : ℚ) :
    Except String ConditionResponse :=
  match checkPeriod currentYear req.backtesting_period with
  | .error e => .error e
  | .ok _ => .ok { condition := req, max_volatility := maxVol, target_return := target }

/-- `create_condition` of src/main.py (lines 36-89): `min_dividend` is divided
by 100 before the style chain, and the style chain picks the decimal-scale
values 0.15/0.10/0.07/0.03/0.01 and 0.06/0.05/0.04/0.03/0.02. -/
def createConditionMain (currentYear : Int) (req : Condition) :
    Except String ConditionResponse :=
  if req.n_stock ≤ 0 then .error "종목 수를 선택해주세요."
  else if req.min_dividend ≤ 0 then .error "배당 수익률을 입력해주세요."
  else
    let req2 : Condition := { req with min_dividend := req.min_dividend / 100 }
    if req.investment_style = "공격투자형" then finishCondition currentYear req2 (15/100) (6/100)
    else if req.investment_style = "적극투자형" then finishCondition currentYear req2 (10/100) (5/100)
    else if req.investment_style = "위험중립형" then finishCondition currentYear req2 (7/100) (4/100)
    else if req.investment_style = "위험회피형" then finishCondition currentYear req2 (3/100) (3/100)
    else if req.investment_style = "안전추구형" then finishCondition currentYear req2 (1/100) (2/100)
    else .error "투자 스타일을 선택해주세요."

/-- `create_condition` of src/app/condition.py (lines 9-62): `min_dividend` is
echoed unchanged and the style chain picks the percent-scale values
15/10/7/3/1 and 6/5/4/3/2. -/
def createConditionApp (currentYear : Int) (req : Condition) :
    Except String ConditionResponse :=
  if req.n_stock ≤ 0 then .error "종목 수를 선택해주세요."
  else if req.min_dividend ≤ 0 then .error "배당 수익률을 입력해주세요."
  else if req.investment_style = "공격투자형" then finishCondition currentYear req 15 6
  else if req.investment_style = "적극투자형" then finishCondition currentYear req 10 5
  else if req.investment_style = "위험중립형" then finishCondition currentYear req 7 4
  else if req.investment_style = "위험회피형" then finishCondition currentYear req 3 3
  else if req.investment_style = "안전추구형" then finishCondition currentYear req 1 2
  else .error "투자 스타일을 선택해주세요."

/-! ## Allocator (modelled from the spec) -/

/-- Modelled from the spec: clipping of the solver output to the weight box,
from §4.1 "Result weights are clipped to [minWeight, maxWeight]"; the module
`backtest/optimizer.py` (`PortfolioOptimizer`) is imported by the pipeline but
absent from the repository snapshot. -/
def clipWeights (minW maxW : ℚ) (w : List ℚ) : List ℚ :=
  w.map (fun x => min maxW (max minW x))

/-- Modelled from the spec: renormalization of a weight vector to unit sum,
from §4.1 "renormalized to sum exactly to 1". -/
def renormalize (w : List ℚ) : List ℚ :=
  w.map (fun x => x / w.sum)

/-- Modelled from the spec: `allocate` of §4.1, with the numerical solver left
as an oracle input `solverOutput` (the module `backtest/optimizer.py` is absent
from the repository snapshot). The precondition `minWeight × N ≤ 1` is checked
(`InfeasibleConstraints` otherwise), `N = 1` short-circuits to `[1]` bypassing
the solver, and otherwise the solver output is clipped to the box and
renormalized to unit sum. -/
def allocate (n : Nat) (minW maxW : ℚ) (solverOutput : List ℚ) : Except String (List ℚ) :=
  if 1 < minW * n then .error "InfeasibleConstraints"
  else if n = 1 then .ok [1]
  else .ok (renormalize (clipWeights minW maxW solverOutput))

/-! ## Analyzer (modelled from the spec) -/

/-- Modelled from the spec: periodic returns `r_t = value(t)/value(t-1) - 1`
of §4.3; the metrics code (`backtest/visualizer.py`) is absent from the
repository snapshot. -/
def periodicReturns (vs : List ℚ) : List ℚ :=
  List.zipWith (fun prev cur => cur / prev - 1) vs vs.tail

/-- Mean of a list of rationals (`0` on the empty list, by `ℚ` division). -/
def listMean (l : List ℚ) : ℚ := l.sum / l.length

/-- Modelled from the spec: the sample variance of §4.3's "sample stdev",
with the `ℚ` convention that the vacuous `0/0` cases are `0`. -/
def sampleVariance (l : List ℚ) : ℚ :=
  ((l.map (fun x => (x - listMean l) ^ 2)).sum) / ((l.length : ℚ) - 1)

/-- Modelled from the spec: `total_return = value(t_end)/value(t0) - 1` of §4.3. -/
def totalReturn (vs : List ℚ) : ℚ := vs.getLastD 0 / vs.headD 0 - 1

/-- Running-maximum drawdown terms `value(t)/running_max(value, ≤ t) - 1`,
accumulating the running maximum in the first argument. -/
def drawdownTerms : ℚ → List ℚ → List ℚ
  | _, [] => []
  | m, v :: rest => (v / max m v - 1) :: drawdownTerms (max m v) rest

/-- Modelled from the spec: `max_drawdown = min over t of
(value(t)/running_max(value, ≤ t) - 1)` of §4.3 (the seed `0` of the fold is
itself the drawdown at `t0`). -/
def maxDrawdown : List ℚ → ℚ
  | [] => 0
  | v :: rest => (drawdownTerms v (v :: rest)).foldr min 0

/-- Modelled from the spec: `annual_volatility = stdev(r_t) × sqrt(252)`
of §4.3, with sample standard deviation. -/
noncomputable def annualVolatility (vs : List ℚ) : ℝ :=
  Real.sqrt ((sampleVariance (periodicReturns vs) : ℚ) : ℝ) * Real.sqrt 252

open Classical in
/-- Modelled from the spec: `sharpe_ratio = (mean(r_t) × 252 - riskFreeRate) /
annual_volatility`, defined as `0` when `annual_volatility = 0` (§4.3's
zero-volatility convention). -/
noncomputable def sharpeRatio (vs : List ℚ) (riskFreeRate : ℚ) : ℝ :=
  if annualVolatility vs = 0 then 0
  else (((listMean (periodicReturns vs) : ℚ) : ℝ) * 252 - (riskFreeRate : ℝ)) /
    annualVolatility vs

/-! ## Sample concrete values used by witnesses and counterexamples -/

/-- A sample screening row (Samsung Electronics-style code). -/
def sampleRowA : CandidateRow :=
  { code := "005930", name := "삼성전자", annual_return := 10, volatility := 20,
    dividend_yield := 3, liquidity := 2000000000 }

/-- A second sample screening row. -/
def sampleRowB : CandidateRow :=
  { code := "000660", name := "SK하이닉스", annual_return := 12, volatility := 25,
    dividend_yield := 4, liquidity := 3000000000 }

/-- A sample individual-stock performance record. -/
def sampleStockPerf : IndividualStockPerformance :=
  { code := "005930", name := "삼성전자", return_ := 1, volatility := 2 }

/-- A sample fully populated response, holding `sampleStockPerf`. -/
def sampleResponse : BacktestResponse :=
  { portfolio :=
      { composition := [], final_value := 0, total_return := 0, annual_volatility := 0,
        sharpe_ratio := 0, max_drawdown := 0, win_rate := 0 },
    benchmark := { final_value := 0, total_return := 0, annual_volatility := 0 },
    individual_stocks := [sampleStockPerf],
    visualizations := { value_changes := "", composition := "", risk_return := "" } }

/-- A sample condition request using the aggressive investment style. -/
def sampleCond : Condition :=
  { n_stock := 5, min_dividend := 2, investment_style := "공격투자형",
    backtesting_period :=
      { start_year := 2020, start_month := 1, end_year := 2023, end_month := 12 } }

/-! ## Theorems -/

/-- C8: `DataLoader.__init__` path normalization is the total function of the
claim: a `postgresql://` path is kept unchanged; otherwise a path ending in
`.db` or starting with `/` is prefixed with `sqlite:///` (so a path that
already starts with `sqlite:///` but ends in `.db` becomes doubly prefixed);
otherwise a path starting with `sqlite:///` is kept; every other path is
rejected with an error. -/
theorem c8_db_path_normalization (dbPath : String) :
    (strStartsWith dbPath "postgresql://" = true →
      normalizeDbPath dbPath = .ok dbPath) ∧
    (strStartsWith dbPath "postgresql://" = false →
      (strEndsWith dbPath ".db" = true ∨ strStartsWith dbPath "/" = true) →
      normalizeDbPath dbPath = .ok ("sqlite:///" ++ dbPath)) ∧
    (strStartsWith dbPath "postgresql://" = false → strEndsWith dbPath ".db" = false →
      strStartsWith dbPath "/" = false → strStartsWith dbPath "sqlite:///" = true →
      normalizeDbPath dbPath = .ok dbPath) ∧
    (strStartsWith dbPath "postgresql://" = false → strEndsWith dbPath ".db" = false →
      strStartsWith dbPath "/" = false → strStartsWith dbPath "sqlite:///" = false →
      normalizeDbPath dbPath = .error ("지원되지 않는 DB 경로 형식: " ++ dbPath)) := by
  refine ⟨fun h => ?_, fun h1 h2 => ?_, fun h1 h2 h3 h4 => ?_, fun h1 h2 h3 h4 => ?_⟩
  · simp [normalizeDbPath, h]
  · rcases h2 with h2 | h2 <;> simp [normalizeDbPath, h1, h2]
  · simp [normalizeDbPath, h1, h2, h3, h4]
  · simp [normalizeDbPath, h1, h2, h3, h4]

/-- Witness for C8: an existing `sqlite:///…​.db` path is doubly prefixed, and a
`postgresql://` path is kept unchanged. -/
theorem c8_db_path_normalization_witness :
    normalizeDbPath "sqlite:///data/stock.db" = .ok "sqlite:///sqlite:///data/stock.db" ∧
    normalizeDbPath "postgresql://host/db" = .ok "postgresql://host/db" := by
  constructor
  · exact (c8_db_path_normalization "sqlite:///data/stock.db").2.1 (by decide)
      (Or.inl (by decide))
  · exact (c8_db_path_normalization "postgresql://host/db").1 (by decide)

/-- C1: every pipeline run either produces a full `BacktestResponse` or the
error object; after a failed stage no later stage influences the outcome (the
result is the failed stage's error object for all choices of the later stage
functions), and the error object carries no metrics (`metrics` is `None`),
never a partially populated metrics record. -/
theorem c1_pipeline_fail_fast (P L O R D : Type)
    (init : Except String P) (load : P → Except String L)
    (opt : L → Except String O) (eng : O → Except String R)
    (gen : R → Except String D) (build : D → Except String BacktestResponse) :
    (∀ e, runPipeline P L O R D init load opt eng gen build = .error e →
      runBacktestApi P L O R D init load opt eng gen build = .errorObj (errorDict e)) ∧
    (∀ r, runPipeline P L O R D init load opt eng gen build = .ok r →
      runBacktestApi P L O R D init load opt eng gen build = .response r) ∧
    (∀ e, init = .error e →
      runBacktestApi P L O R D init load opt eng gen build = .errorObj (errorDict e)) ∧
    (∀ p e, init = .ok p → load p = .error e →
      runBacktestApi P L O R D init load opt eng gen build = .errorObj (errorDict e)) ∧
    (∀ p l e, init = .ok p → load p = .ok l → opt l = .error e →
      runBacktestApi P L O R D init load opt eng gen build = .errorObj (errorDict e)) ∧
    (∀ p l o e, init = .ok p → load p = .ok l → opt l = .ok o → eng o = .error e →
      runBacktestApi P L O R D init load opt eng gen build = .errorObj (errorDict e)) ∧
    (∀ p l o r e, init = .ok p → load p = .ok l → opt l = .ok o → eng o = .ok r →
      gen r = .error e →
      runBacktestApi P L O R D init load opt eng gen build = .errorObj (errorDict e)) := by
  refine ⟨fun e h => ?_, fun r h => ?_, fun e h => ?_, fun p e h1 h2 => ?_,
    fun p l e h1 h2 h3 => ?_, fun p l o e h1 h2 h3 h4 => ?_,
    fun p l o r e h1 h2 h3 h4 h5 => ?_⟩
  · simp [runBacktestApi, h]
  · simp [runBacktestApi, h]
  · simp [runBacktestApi, runPipeline, h]
  · simp [runBacktestApi, runPipeline, h1, h2]
  · simp [runBacktestApi, runPipeline, h1, h2, h3]
  · simp [runBacktestApi, runPipeline, h1, h2, h3, h4]
  · simp [runBacktestApi, runPipeline, h1, h2, h3, h4, h5]

/-- Witness for C1: with a failing load stage, the run yields the error object
with `metrics = None` regardless of the later stages. -/
theorem c1_pipeline_fail_fast_witness :
    runBacktestApi Unit Unit Unit Unit Unit (.ok ()) (fun _ => .error "데이터 없음")
      (fun _ => .ok ()) (fun _ => .ok ()) (fun _ => .ok ())
      (fun _ => .ok sampleResponse) = .errorObj (errorDict "데이터 없음") :=
  (c1_pipeline_fail_fast Unit Unit Unit Unit Unit (.ok ()) (fun _ => .error "데이터 없음")
    (fun _ => .ok ()) (fun _ => .ok ()) (fun _ => .ok ())
    (fun _ => .ok sampleResponse)).2.2.2.1 () "데이터 없음" rfl rfl

/-- C10: `run_backtest_api` always returns a value — a `BacktestResponse` on
success or the error dictionary on failure — and both are truthy in Python, so
the HTTP-500 branch of the `/run-backtest` endpoint is unreachable. -/
theorem c10_endpoint_500_unreachable (P L O R D : Type)
    (init : Except String P) (load : P → Except String L)
    (opt : L → Except String O) (eng : O → Except String R)
    (gen : R → Except String D) (build : D → Except String BacktestResponse) :
    ((∃ r, runBacktestApi P L O R D init load opt eng gen build = .response r) ∨
      (∃ e, runBacktestApi P L O R D init load opt eng gen build =
        .errorObj (errorDict e))) ∧
    apiResultTruthy (runBacktestApi P L O R D init load opt eng gen build) = true ∧
    runBacktestEndpoint P L O R D init load opt eng gen build =
      .ok (runBacktestApi P L O R D init load opt eng gen build) ∧
    (∀ code msg,
      runBacktestEndpoint P L O R D init load opt eng gen build ≠ .httpError code msg) := by
  cases h : runPipeline P L O R D init load opt eng gen build with
  | ok r =>
    refine ⟨Or.inl ⟨r, by simp [runBacktestApi, h]⟩, ?_, ?_, ?_⟩ <;>
      simp [runBacktestEndpoint, runBacktestApi, apiResultTruthy, h]
  | error e =>
    refine ⟨Or.inr ⟨e, by simp [runBacktestApi, h]⟩, ?_, ?_, ?_⟩ <;>
      simp [runBacktestEndpoint, runBacktestApi, apiResultTruthy, errorDict, h]

/-- Witness for C10: a concrete failing run still returns a truthy error object
and the endpoint does not answer HTTP 500. -/
theorem c10_endpoint_500_unreachable_witness :
    apiResultTruthy (runBacktestApi Unit Unit Unit Unit Unit (.error "DB 연결 실패")
      (fun _ => .ok ()) (fun _ => .ok ()) (fun _ => .ok ()) (fun _ => .ok ())
      (fun _ => .ok sampleResponse)) = true ∧
    runBacktestEndpoint Unit Unit Unit Unit Unit (.error "DB 연결 실패")
      (fun _ => .ok ()) (fun _ => .ok ()) (fun _ => .ok ()) (fun _ => .ok ())
      (fun _ => .ok sampleResponse) ≠ .httpError 500 "백테스트 실행 중 오류가 발생했습니다." :=
  ⟨(c10_endpoint_500_unreachable Unit Unit Unit Unit Unit (.error "DB 연결 실패")
      (fun _ => .ok ()) (fun _ => .ok ()) (fun _ => .ok ()) (fun _ => .ok ())
      (fun _ => .ok sampleResponse)).2.1,
   (c10_endpoint_500_unreachable Unit Unit Unit Unit Unit (.error "DB 연결 실패")
      (fun _ => .ok ()) (fun _ => .ok ()) (fun _ => .ok ()) (fun _ => .ok ())
      (fun _ => .ok sampleResponse)).2.2.2 500 "백테스트 실행 중 오류가 발생했습니다."⟩

/-- C4 counterexample: the serialized field names of an individual-stock entry
are not `code, name, return, volatility` — the third key is `return_`, the
declared field name of `IndividualStockPerformance`, for which no alias is
configured. -/
theorem c4_individual_stock_fields_counterexample :
    decide ((serializeIndividualStock sampleStockPerf).map Prod.fst =
      ["code", "name", "return", "volatility"]) = false := by
  decide

/-- C4 (amended): every element of `individual_stocks` in a successful response
is serialized with exactly the field names `code, name, return_, volatility`. -/
theorem c4_individual_stock_fields (resp : BacktestResponse)
    (s : IndividualStockPerformance) (_hs : s ∈ resp.individual_stocks) :
    (serializeIndividualStock s).map Prod.fst =
      ["code", "name", "return_", "volatility"] := by
  simp [serializeIndividualStock]

/-- Witness for C4: the sample stock inside `sampleResponse` serializes with the
amended field names. -/
theorem c4_individual_stock_fields_witness :
    (serializeIndividualStock sampleStockPerf).map Prod.fst =
      ["code", "name", "return_", "volatility"] :=
  c4_individual_stock_fields sampleResponse sampleStockPerf (by decide)

/-- C3: with the benchmark fetch succeeding, a per-instrument price fetch
failure (or invalid data) drops only that instrument: for every candidate set
and every pattern of per-instrument outcomes, the surviving price columns are
exactly the candidates with valid data, and the run fails precisely when no
instrument survives. -/
theorem c3_per_instrument_drop (stockData : List CandidateRow)
    (fetch : String → Option (List (Option ℚ))) (bench : List ℚ) :
    (∀ out, loadStockData stockData fetch (.ok bench) = .ok out →
      ∀ c, c ∈ out.stockPricesColumns ↔
        ∃ r ∈ stockData, r.code = c ∧ validPriceData (fetch r.code) = true) ∧
    ((∃ msg, loadStockData stockData fetch (.ok bench) = .error msg) ↔
      ∀ r ∈ stockData, validPriceData (fetch r.code) = false) := by
  by_cases h : (collectValidStocks stockData fetch).isEmpty
  · constructor
    · intro out hout
      simp [loadStockData, h] at hout
    · have hnil : collectValidStocks stockData fetch = [] := List.isEmpty_iff.mp h
      have hall := List.filter_eq_nil_iff.mp hnil
      constructor
      · intro _ r hr
        simpa using hall r hr
      · intro _
        exact ⟨"유효한 주가 데이터가 없습니다", by simp [loadStockData, h]⟩
  · have hne : collectValidStocks stockData fetch ≠ [] := by
      simpa [List.isEmpty_iff] using h
    constructor
    · intro out hout c
      simp [loadStockData, h] at hout
      subst hout
      simp only [List.mem_dedup, List.mem_map, collectValidStocks]
      constructor
      · rintro ⟨r, hr, rfl⟩
        obtain ⟨hrd, hv⟩ := List.mem_filter.mp hr
        exact ⟨r, hrd, rfl, hv⟩
      · rintro ⟨r, hrd, rfl, hv⟩
        exact ⟨r, List.mem_filter.mpr ⟨hrd, hv⟩, rfl⟩
    · constructor
      · rintro ⟨msg, hmsg⟩
        simp [loadStockData, h] at hmsg
      · intro hall
        exact absurd (List.filter_eq_nil_iff.mpr (by simpa using hall)) hne

/-- Witness for C3: with one candidate fetching valid data and the second
failing, exactly the first survives. -/
theorem c3_per_instrument_drop_witness :
    "005930" ∈ ["005930"] ↔
      ∃ r ∈ [sampleRowA, sampleRowB], r.code = "005930" ∧
        validPriceData ((fun code => if code = "005930" then
          some [some (1 : ℚ), some 2] else none) r.code) = true :=
  (c3_per_instrument_drop [sampleRowA, sampleRowB]
      (fun code => if code = "005930" then some [some 1, some 2] else none) [1, 2]).1
    { stockPricesColumns := ["005930"], stockInfo := [sampleRowA], benchmark := [1, 2] }
    (by decide) "005930"

/-- C7: on every successfully built price set, the instrument codes that are
price columns and the instrument codes keyed in the stored instrument info have
the same membership. -/
theorem c7_prices_info_same_membership (stockData : List CandidateRow)
    (fetch : String → Option (List (Option ℚ)))
    (benchmarkFetch : Except String (List ℚ)) (out : PriceSetOut)
    (h : loadStockData stockData fetch benchmarkFetch = .ok out) :
    ∀ c, c ∈ out.stockPricesColumns ↔ c ∈ out.stockInfo.map (·.code) := by
  by_cases he : (collectValidStocks stockData fetch).isEmpty
  · simp [loadStockData, he] at h
  · cases hb : benchmarkFetch with
    | error e => simp [loadStockData, he, hb] at h
    | ok bench =>
      simp [loadStockData, he, hb] at h
      subst h
      intro c
      simp only [List.mem_dedup, List.mem_map, List.mem_filter]
      constructor
      · rintro ⟨r, hr, rfl⟩
        refine ⟨r, ⟨(List.mem_filter.mp hr).1, ?_⟩, rfl⟩
        simp only [List.elem_eq_mem, decide_eq_true_eq, List.mem_map]
        exact ⟨r, hr, rfl⟩
      · rintro ⟨r, ⟨hrd, hcont⟩, rfl⟩
        simpa using hcont

/-- Witness for C7: on a concrete successful load, price columns and info codes
agree in membership. -/
theorem c7_prices_info_same_membership_witness :
    "005930" ∈ (["005930"] : List String) ↔ "005930" ∈ [sampleRowA].map (·.code) :=
  c7_prices_info_same_membership [sampleRowA, sampleRowB]
    (fun code => if code = "005930" then some [some 1, some 2] else none) (.ok [1, 2])
    { stockPricesColumns := ["005930"], stockInfo := [sampleRowA], benchmark := [1, 2] }
    (by decide) "005930"

/-- C5: the candidate fetch returns only rows satisfying the screening filter
(dividend yield at least the minimum, liquidity at least the bound parameter
`min_liquidity × 1,000,000` won, volatility at most the maximum), sorted by
annual return descending and limited to `limit` rows, and it errors whenever no
row satisfies the filter. -/
theorem c5_fetch_candidates (db : List CandidateRow) (limit : Nat)
    (minDividend minLiquidity maxVolatility : ℚ) :
    (∀ rows, loadDbData db limit minDividend minLiquidity maxVolatility = .ok rows →
      (∀ r ∈ rows, minDividend ≤ r.dividend_yield ∧
        minLiquidity * 1000000 ≤ r.liquidity ∧ r.volatility ≤ maxVolatility) ∧
      List.Pairwise (fun a b => b.annual_return ≤ a.annual_return) rows ∧
      rows.length ≤ limit ∧ (∀ r ∈ rows, r ∈ db)) ∧
    ((∀ r ∈ db, ¬ candidateMatches minDividend minLiquidity maxVolatility r = true) →
      ∃ msg, loadDbData db limit minDividend minLiquidity maxVolatility = .error msg) := by
  constructor
  · intro rows hrows
    by_cases h : (((db.filter
        (candidateMatches minDividend minLiquidity maxVolatility)).mergeSort
          annualReturnDesc).take limit).isEmpty
    · simp [loadDbData, h] at hrows
    · simp [loadDbData, h] at hrows
      subst hrows
      refine ⟨?_, ?_, ?_, ?_⟩
      · intro r hr
        have hmem := List.mem_mergeSort.mp (List.mem_of_mem_take hr)
        have hp := (List.mem_filter.mp hmem).2
        simp only [candidateMatches, Bool.and_eq_true, decide_eq_true_eq] at hp
        exact ⟨hp.1.1, hp.1.2, hp.2⟩
      · have hsorted := @List.sorted_mergeSort CandidateRow annualReturnDesc
          (fun a b c hab hbc => by
            simp only [annualReturnDesc, decide_eq_true_eq] at hab hbc ⊢
            exact le_trans hbc hab)
          (fun a b => by
            simp only [annualReturnDesc, Bool.or_eq_true, decide_eq_true_eq]
            exact le_total b.annual_return a.annual_return)
          (db.filter (candidateMatches minDividend minLiquidity maxVolatility))
        have htake := hsorted.sublist (List.take_sublist limit _)
        exact htake.imp (fun hab => by
          simp only [annualReturnDesc, decide_eq_true_eq] at hab
          exact hab)
      · exact (List.length_take _ _).le.trans inf_le_left
      · intro r hr
        exact (List.mem_filter.mp (List.mem_mergeSort.mp (List.mem_of_mem_take hr))).1
  · intro hall
    have hfil : db.filter (candidateMatches minDividend minLiquidity maxVolatility) = [] :=
      List.filter_eq_nil_iff.mpr hall
    refine ⟨"조건을 만족하는 종목이 없습니다.", ?_⟩
    simp [loadDbData, hfil]

/-- Witness for C5: on a concrete two-row table with limit 1, the returned row
satisfies the filter, is the sorted head, and comes from the table. -/
theorem c5_fetch_candidates_witness :
    (∀ r ∈ [sampleRowB], (2 : ℚ) ≤ r.dividend_yield ∧
      (100 : ℚ) * 1000000 ≤ r.liquidity ∧ r.volatility ≤ 40) ∧
    List.Pairwise (fun a b => b.annual_return ≤ a.annual_return) [sampleRowB] ∧
    [sampleRowB].length ≤ 1 ∧ (∀ r ∈ [sampleRowB], r ∈ [sampleRowA, sampleRowB]) :=
  (c5_fetch_candidates [sampleRowA, sampleRowB] 1 2 100 40).1 [sampleRowB]
    (by norm_num [loadDbData, candidateMatches, annualReturnDesc, sampleRowA, sampleRowB,
      List.mergeSort, List.filter])

/-- Mapping a function that fixes every element of a list is the identity. -/
theorem map_eq_self_of_eq (f : ℚ → ℚ) : ∀ (l : List ℚ), (∀ x ∈ l, f x = x) → l.map f = l
  | [], _ => rfl
  | a :: t, h => by
    rw [List.map_cons, h a (by simp),
      map_eq_self_of_eq f t (fun x hx => h x (List.mem_cons_of_mem a hx))]

/-- C2 counterexample: under the claim's feasibility conditions alone
(`0 ≤ minWeight ≤ maxWeight ≤ 1`, `minWeight × N ≤ 1`), the bounds can fail:
with `N = 1` and `maxWeight = 1/2` the constraint set is feasible per the
claim, yet the `N = 1` edge case returns the weight `1 > maxWeight`. -/
theorem c2_allocate_counterexample :
    (0 : ℚ) ≤ 0 ∧ (0 : ℚ) ≤ 1/2 ∧ (1/2 : ℚ) ≤ 1 ∧ (0 : ℚ) * (1 : Nat) ≤ 1 ∧
    allocate 1 0 (1/2) [1] = .ok [1] ∧ (1/2 : ℚ) < 1 := by
  refine ⟨le_refl 0, by norm_num, by norm_num, by norm_num, ?_, by norm_num⟩
  norm_num [allocate]

/-- C2 (amended): for every instrument count `N ≥ 1` and constraint set with
`0 ≤ minWeight ≤ maxWeight ≤ 1` and `minWeight × N ≤ 1 ≤ maxWeight × N`, given
a solver output that satisfies the box and budget constraints (which §4.1
requires of a successful solve), the returned allocation keeps every weight in
`[minWeight, maxWeight]` and sums to exactly 1 (hence within the 1e-6
tolerance). -/
theorem c2_allocate_feasible (n : Nat) (minW maxW : ℚ) (ws : List ℚ)
    (hn : 1 ≤ n) (_h0 : 0 ≤ minW) (_hmm : minW ≤ maxW) (_hm1 : maxW ≤ 1)
    (hlo : minW * n ≤ 1) (hhi : 1 ≤ maxW * n) (hlen : ws.length = n)
    (hbox : ∀ w ∈ ws, minW ≤ w ∧ w ≤ maxW) (hsum : ws.sum = 1) :
    ∃ r, allocate n minW maxW ws = .ok r ∧ r.length = n ∧
      (∀ w ∈ r, minW ≤ w ∧ w ≤ maxW) ∧ r.sum = 1 := by
  have hnot : ¬ (1 < minW * n) := not_lt.mpr hlo
  by_cases h1 : n = 1
  · subst h1
    have hlo' : minW ≤ 1 := by simpa using hlo
    have hhi' : 1 ≤ maxW := by simpa using hhi
    have hnot' : ¬ (1 < minW) := not_lt.mpr hlo'
    refine ⟨[1], by simp [allocate, hnot'], rfl, ?_, by simp⟩
    intro w hw
    simp only [List.mem_singleton] at hw
    subst hw
    exact ⟨hlo', hhi'⟩
  · have hclip : clipWeights minW maxW ws = ws := by
      unfold clipWeights
      refine map_eq_self_of_eq _ ws ?_
      intro x hx
      obtain ⟨hxl, hxu⟩ := hbox x hx
      rw [max_eq_right hxl, min_eq_right hxu]
    have hren : renormalize ws = ws := by
      unfold renormalize
      rw [hsum]
      simp
    refine ⟨ws, ?_, hlen, hbox, hsum⟩
    simp [allocate, hnot, h1, hclip, hren]

/-- Witness for C2: two instruments, box `[0, 1]`, solver output `[1/2, 1/2]`. -/
theorem c2_allocate_feasible_witness :
    ∃ r, allocate 2 0 1 [1/2, 1/2] = .ok r ∧ r.length = 2 ∧
      (∀ w ∈ r, (0 : ℚ) ≤ w ∧ w ≤ 1) ∧ r.sum = 1 :=
  c2_allocate_feasible 2 0 1 [1/2, 1/2] (by norm_num) (le_refl 0) (by norm_num)
    (le_refl 1) (by norm_num) (by norm_num) (by norm_num)
    (by intro w hw; rcases List.mem_pair.mp hw with h | h <;> subst h <;> norm_num)
    (by norm_num)

/-- C9 counterexample: on a request accepted by both revisions of the condition
endpoint, the two revisions disagree on `max_volatility` (0.15 vs 15), on
`target_return` (0.06 vs 6), and on the echoed `min_dividend` (divided by 100
in src/main.py, unchanged in src/app/condition.py). -/
theorem c9_condition_revisions_counterexample :
    ∃ rm rc, createConditionMain 2026 sampleCond = .ok rm ∧
      createConditionApp 2026 sampleCond = .ok rc ∧
      rm.max_volatility ≠ rc.max_volatility ∧
      rm.target_return ≠ rc.target_return ∧
      rm.condition.min_dividend ≠ rc.condition.min_dividend := by
  refine ⟨{ condition := { sampleCond with min_dividend := 2/100 },
            max_volatility := 15/100, target_return := 6/100 },
          { condition := sampleCond, max_volatility := 15, target_return := 6 },
          ?_, ?_, by norm_num, by norm_num, by norm_num [sampleCond]⟩
  · norm_num [createConditionMain, finishCondition, checkPeriod, START_YEAR, sampleCond]
  · norm_num [createConditionApp, finishCondition, checkPeriod, START_YEAR, sampleCond]

/-- C9 (amended): for every request accepted by both revisions, the two
revisions agree only up to scale — src/app/condition.py's `max_volatility`,
`target_return`, and echoed `min_dividend` are each exactly 100 times
src/main.py's (src/main.py divides `min_dividend` by 100 before echoing and
uses decimal-scale style parameters; src/app/condition.py echoes `min_dividend`
unchanged and uses percent-scale style parameters). -/
theorem c9_condition_revisions_scale (currentYear : Int) (req : Condition)
    (rm rc : ConditionResponse)
    (hm : createConditionMain currentYear req = .ok rm)
    (hc : createConditionApp currentYear req = .ok rc) :
    rc.max_volatility = 100 * rm.max_volatility ∧
    rc.target_return = 100 * rm.target_return ∧
    rc.condition.min_dividend = 100 * rm.condition.min_dividend := by
  simp only [createConditionMain] at hm
  simp only [createConditionApp] at hc
  split_ifs at hm hc
  all_goals first
    | exact Except.noConfusion hm
    | exact Except.noConfusion hc
    | (cases hcp : checkPeriod currentYear req.backtesting_period with
       | error e =>
         simp only [finishCondition, hcp] at hm
         exact absurd hm (by simp)
       | ok u =>
         simp only [finishCondition, hcp, Except.ok.injEq] at hm hc
         subst hm
         subst hc
         refine ⟨by norm_num, by norm_num, ?_⟩
         show req.min_dividend = 100 * (req.min_dividend / 100)
         ring)

/-- Witness for C9: the sample aggressive-style request is accepted by both
revisions and the scale relation holds on it. -/
theorem c9_condition_revisions_scale_witness :
    ∃ rm rc, createConditionMain 2026 sampleCond = .ok rm ∧
      createConditionApp 2026 sampleCond = .ok rc ∧
      rc.max_volatility = 100 * rm.max_volatility ∧
      rc.target_return = 100 * rm.target_return ∧
      rc.condition.min_dividend = 100 * rm.condition.min_dividend := by
  have hm : createConditionMain 2026 sampleCond =
      .ok { condition := { sampleCond with min_dividend := 2/100 },
            max_volatility := 15/100, target_return := 6/100 } := by
    norm_num [createConditionMain, finishCondition, checkPeriod, START_YEAR, sampleCond]
  have hc : createConditionApp 2026 sampleCond =
      .ok { condition := sampleCond, max_volatility := 15, target_return := 6 } := by
    norm_num [createConditionApp, finishCondition, checkPeriod, START_YEAR, sampleCond]
  exact ⟨_, _, hm, hc, c9_condition_revisions_scale 2026 sampleCond _ _ hm hc⟩

/-- On a list of constant value `c ≠ 0`, every periodic return is `0`. -/
theorem periodicReturns_flat (c : ℚ) (hc : c ≠ 0) :
    ∀ (vs : List ℚ), (∀ x ∈ vs, x = c) →
      periodicReturns vs = List.replicate (vs.length - 1) 0
  | [], _ => rfl
  | [_], _ => rfl
  | a :: b :: t, h => by
    have ha : a = c := h a (by simp)
    have hb : b = c := h b (by simp)
    have ih := periodicReturns_flat c hc (b :: t)
      (fun x hx => h x (List.mem_cons_of_mem a hx))
    have hstep : periodicReturns (a :: b :: t) = (b / a - 1) :: periodicReturns (b :: t) := rfl
    rw [hstep, ih, ha, hb, div_self hc]
    simp [List.replicate]

/-- Sample variance of a constant-zero list is `0`. -/
theorem sampleVariance_replicate_zero (k : Nat) :
    sampleVariance (List.replicate k 0) = 0 := by
  simp [sampleVariance, listMean]

/-- The head default of a nonempty constant list is the constant. -/
theorem headD_flat (c : ℚ) : ∀ (vs : List ℚ), vs ≠ [] → (∀ x ∈ vs, x = c) →
    vs.headD 0 = c
  | a :: _, _, h => h a (by simp)

/-- The last default of a nonempty constant list is the constant. -/
theorem getLastD_flat (c : ℚ) : ∀ (vs : List ℚ) (d : ℚ), vs ≠ [] →
    (∀ x ∈ vs, x = c) → vs.getLastD d = c
  | [a], _, _, h => by simp [h a (by simp)]
  | a :: b :: t, _, _, h => by
    rw [List.getLastD_cons]
    exact getLastD_flat c (b :: t) a (by simp) (fun x hx => h x (List.mem_cons_of_mem a hx))

/-- Drawdown terms over a constant tail, started at the constant, are all `0`. -/
theorem drawdownTerms_flat (c : ℚ) (hc : c ≠ 0) :
    ∀ (t : List ℚ), (∀ x ∈ t, x = c) → drawdownTerms c t = List.replicate t.length 0
  | [], _ => rfl
  | v :: rest, h => by
    have hv : v = c := h v (by simp)
    have ih := drawdownTerms_flat c hc rest (fun x hx => h x (List.mem_cons_of_mem v hx))
    simp [drawdownTerms, hv, div_self hc, ih, List.replicate]

/-- Folding `min` with seed `0` over a constant-zero list gives `0`. -/
theorem foldr_min_replicate_zero : ∀ (k : Nat),
    (List.replicate k (0 : ℚ)).foldr min 0 = 0
  | 0 => rfl
  | k + 1 => by simp [List.replicate, foldr_min_replicate_zero k]

/-- C6: on a flat value series (the same positive price on every date, at
least 2 dates), the per-series statistics are `total_return = 0`,
`annual_volatility = 0`, `max_drawdown = 0`, and `sharpe_ratio = 0`, the latter
by the zero-volatility convention rather than a division error. -/
theorem c6_flat_series_metrics (c : ℚ) (vs : List ℚ) (riskFreeRate : ℚ)
    (hc : 0 < c) (hlen : 2 ≤ vs.length) (hflat : ∀ x ∈ vs, x = c) :
    totalReturn vs = 0 ∧ annualVolatility vs = 0 ∧ maxDrawdown vs = 0 ∧
      sharpeRatio vs riskFreeRate = 0 := by
  have hc0 : c ≠ 0 := ne_of_gt hc
  have hne : vs ≠ [] := by
    intro h
    rw [h] at hlen
    simp at hlen
  have hvol : annualVolatility vs = 0 := by
    unfold annualVolatility
    rw [periodicReturns_flat c hc0 vs hflat, sampleVariance_replicate_zero]
    simp
  refine ⟨?_, hvol, ?_, ?_⟩
  · unfold totalReturn
    rw [headD_flat c vs hne hflat, getLastD_flat c vs 0 hne hflat, div_self hc0]
    ring
  · obtain ⟨a, t, rfl⟩ : ∃ a t, vs = a :: t := by
      cases vs with
      | nil => exact absurd rfl hne
      | cons a t => exact ⟨a, t, rfl⟩
    have ha : a = c := hflat a (by simp)
    subst ha
    rw [show maxDrawdown (a :: t) = (drawdownTerms a (a :: t)).foldr min 0 from rfl,
      drawdownTerms_flat a hc0 (a :: t) hflat, foldr_min_replicate_zero]
  · unfold sharpeRatio
    rw [if_pos hvol]

/-- Witness for C6: the flat series `[5, 5, 5]` has all four statistics `0`. -/
theorem c6_flat_series_metrics_witness :
    totalReturn [5, 5, 5] = 0 ∧ annualVolatility [5, 5, 5] = 0 ∧
      maxDrawdown [5, 5, 5] = 0 ∧ sharpeRatio [5, 5, 5] (3 / 100) = 0 :=
  c6_flat_series_metrics 5 [5, 5, 5] (3 / 100) (by norm_num) (by norm_num) (by decide)

end InvestmentBE
